import Mathlib

/-!
Verification of the streaming-response coordinator of the desk-mew-pet
repository (src/main.ts), as a shallow embedding in Lean 4.

The embedding mirrors the TypeScript source: the mutable module-level
variables of main.ts become fields of `MewState`, and each function or
event-listener body of the source becomes a pure state transformer.
Timers are modelled by their armed/disarmed status (they are single-shot
`setTimeout` handles in the source); a timer "firing" is modelled by a
separate transformer giving the body of the corresponding callback.
-/

namespace DeskMewPet

/-- Mirrors `type ChatRuntimeState` of main.ts. -/
inductive ChatRuntimeState where
  | idle
  | waiting_first_token
  | streaming
  | round_done
  | error
deriving DecidableEq, Repr

/-- The module-level mutable state of the chat coordinator in main.ts:
`chatState`, `currentRoundId`, `renderedStreamText`, `pendingStreamText`,
`gotFirstToken`, `sawRawChunk`, the three stream timers (armed or not),
the chat-bubble contents/visibility, and the first-fail modal visibility. -/
structure MewState where
  chatState : ChatRuntimeState
  currentRoundId : Nat
  renderedStreamText : String
  pendingStreamText : String
  gotFirstToken : Bool
  sawRawChunk : Bool
  flushTimer : Bool
  silenceTimer : Bool
  firstTokenTimer : Bool
  bubbleText : String
  bubbleHidden : Bool
  firstFailModalVisible : Bool
deriving DecidableEq, Repr

/-- The initial values of the module-level variables in main.ts. -/
def initialState : MewState :=
  { chatState := .idle
    currentRoundId := 0
    renderedStreamText := ""
    pendingStreamText := ""
    gotFirstToken := false
    sawRawChunk := false
    flushTimer := false
    silenceTimer := false
    firstTokenTimer := false
    bubbleText := ""
    bubbleHidden := true
    firstFailModalVisible := false }

/-- `STREAM_BATCH_CHARS` of main.ts. -/
def STREAM_BATCH_CHARS : Nat := 8

/-- `EMPTY_INPUT_HINT` of main.ts. -/
def EMPTY_INPUT_HINT : String := "请说点什么～"

/-- `THINKING_HINT` of main.ts. -/
def THINKING_HINT : String := "思考中…"

/-- `SESSION_INTERRUPTED_HINT` of main.ts. -/
def SESSION_INTERRUPTED_HINT : String := "会话已中断，请重试"

/-- `STREAM_UNPARSABLE_HINT` of main.ts. -/
def STREAM_UNPARSABLE_HINT : String := "收到终端控制输出，暂未解析到可展示文本。"

/-- `RETRY_FAILED_HINT` of main.ts. -/
def RETRY_FAILED_HINT : String := "重试失败，请在终端运行 qwen 并完成登录后再试。"

/-! ## The sanitizer

main.ts sanitizes each chunk by replacing `ANSI_CSI_PATTERN` matches,
then `ANSI_OSC_PATTERN` matches, then carriage returns, each by the empty
string.  `ANSI_CSI_PATTERN` is ESC `[`, then chars 0x30 to 0x3F, then
chars 0x20 to 0x2F, then one char 0x40 to 0x7E; `ANSI_OSC_PATTERN` is
ESC `]`, then non-BEL chars, terminated by BEL or ESC backslash.
We model JavaScript global regex replacement-by-empty as a left-to-right
scan that deletes the leftmost match and resumes after it.  The three
character classes of the CSI pattern are pairwise disjoint, so greedy
matching is deterministic.  For the OSC pattern the greedy star
`[^\u0007]*` cannot cross a BEL, so a match ends at the first BEL after
`ESC ]` when one exists; with no BEL, backtracking from the longest star
ends the match at the last `ESC \` of the remainder. -/

/-- Character class of parameter bytes (0x30 to 0x3F) of
`ANSI_CSI_PATTERN`. -/
def isCsiParam (c : Char) : Bool := 0x30 ≤ c.toNat && c.toNat ≤ 0x3F

/-- Character class of intermediate bytes (0x20 to 0x2F) of
`ANSI_CSI_PATTERN`. -/
def isCsiInter (c : Char) : Bool := 0x20 ≤ c.toNat && c.toNat ≤ 0x2F

/-- Character class of final bytes (0x40 to 0x7E) of
`ANSI_CSI_PATTERN`. -/
def isCsiFinal (c : Char) : Bool := 0x40 ≤ c.toNat && c.toNat ≤ 0x7E

/-- Match `ANSI_CSI_PATTERN` at the head of the character list; on success
return the characters after the match. -/
def csiMatch (l : List Char) : Option (List Char) :=
  match l with
  | a :: b :: rest =>
    if a = '\u001b' ∧ b = '[' then
      let r1 := rest.dropWhile isCsiParam
      let r2 := r1.dropWhile isCsiInter
      match r2 with
      | c :: r3 => if isCsiFinal c then some r3 else none
      | [] => none
    else none
  | _ => none

/-- Characters after the first BEL (`\u0007`) of the list, if any. -/
def splitAfterBel (l : List Char) : Option (List Char) :=
  match l with
  | [] => none
  | c :: t => if c = '\u0007' then some t else splitAfterBel t

/-- Characters after the last `ESC \` pair of the list, if any. -/
def afterLastEscBackslash (l : List Char) : Option (List Char) :=
  match l with
  | [] => none
  | [_] => none
  | a :: b :: t =>
    match afterLastEscBackslash (b :: t) with
    | some r => some r
    | none => if a = '\u001b' ∧ b = '\\' then some t else none

/-- Match `ANSI_OSC_PATTERN` at the head of the character list; on success
return the characters after the match. -/
def oscMatch (l : List Char) : Option (List Char) :=
  match l with
  | a :: b :: rest =>
    if a = '\u001b' ∧ b = ']' then
      match splitAfterBel rest with
      | some r => some r
      | none => afterLastEscBackslash rest
    else none
  | _ => none

/-- One fuelled step of JavaScript `String.prototype.replace` with a global
pattern and empty replacement: delete the leftmost match, resume after it.
The fuel only guarantees totality; `fuel = l.length` always suffices, since
every step consumes at least one character. -/
def stripAux (pat : List Char → Option (List Char)) : Nat → List Char → List Char
  | 0, l => l
  | _ + 1, [] => []
  | fuel + 1, c :: t =>
    match pat (c :: t) with
    | some rest => stripAux pat fuel rest
    | none => c :: stripAux pat fuel t

/-- JavaScript `s.replace(pat, '')` for a global regex `pat`. -/
def stripPattern (pat : List Char → Option (List Char)) (l : List Char) : List Char :=
  stripAux pat l.length l

/-- The sanitization pipeline applied to each chunk in `appendChunk`:
remove CSI sequences, then OSC sequences, then carriage returns. -/
def sanitize (chunk : String) : String :=
  ⟨(stripPattern oscMatch (stripPattern csiMatch chunk.data)).filter (fun c => c ≠ '\r')⟩

/-! ## State transformers for the functions of main.ts -/

/-- `clearStreamTimers` of main.ts. -/
def clearStreamTimers (st : MewState) : MewState :=
  { st with flushTimer := false, silenceTimer := false, firstTokenTimer := false }

/-- `showBubbleInstant` of main.ts. -/
def showBubbleInstant (message : String) (st : MewState) : MewState :=
  { st with bubbleText := message, bubbleHidden := false }

/-- `hideBubble` of main.ts (also the body of the chat-bubble click
listener).  Note that it does not reset `sawRawChunk` or
`currentRoundId`. -/
def hideBubble (st : MewState) : MewState :=
  let st1 := clearStreamTimers st
  { st1 with pendingStreamText := "", renderedStreamText := "", gotFirstToken := false,
             bubbleText := "", bubbleHidden := true, chatState := .idle }

/-- `flushPendingStream` of main.ts. -/
def flushPendingStream (st : MewState) : MewState :=
  let st1 := { st with flushTimer := false }
  if st1.pendingStreamText.length = 0 then st1
  else
    let st2 :=
      if st1.gotFirstToken = false then
        { st1 with gotFirstToken := true, renderedStreamText := "",
                   chatState := .streaming, firstTokenTimer := false }
      else st1
    let st3 := { st2 with renderedStreamText := st2.renderedStreamText ++ st2.pendingStreamText,
                          pendingStreamText := "" }
    showBubbleInstant st3.renderedStreamText st3

/-- `scheduleFlush` of main.ts: arm the debounce flush timer unless it is
already pending. -/
def scheduleFlush (st : MewState) : MewState :=
  if st.flushTimer then st else { st with flushTimer := true }

/-- `resetSilenceTimer` of main.ts, arm side: the old handle (if any) is
cleared and a fresh single-shot timer is armed. -/
def resetSilenceTimer (st : MewState) : MewState :=
  { st with silenceTimer := true }

/-- The body of the silence-timer callback in `resetSilenceTimer` of
main.ts. -/
def silenceFire (st : MewState) : MewState :=
  let st1 := flushPendingStream st
  if st1.chatState = .error then { st1 with silenceTimer := false }
  else if st1.gotFirstToken = false ∧ st1.sawRawChunk then
    { (showBubbleInstant STREAM_UNPARSABLE_HINT st1) with chatState := .error, silenceTimer := false }
  else
    { st1 with chatState := .round_done, silenceTimer := false }

/-- `resetFirstTokenTimer` of main.ts, arm side. -/
def resetFirstTokenTimer (st : MewState) : MewState :=
  { st with firstTokenTimer := true }

/-- The body of the first-token-timer callback in `resetFirstTokenTimer`
of main.ts. -/
def firstTokenFire (st : MewState) : MewState :=
  if st.chatState ≠ .waiting_first_token ∨ st.gotFirstToken then
    { st with firstTokenTimer := false }
  else
    { (showBubbleInstant SESSION_INTERRUPTED_HINT st) with
        chatState := .error, firstTokenTimer := false }

/-- `startRound` of main.ts (the `closeInput` call only touches the input
form, outside this state). -/
def startRound (roundId : Nat) (st : MewState) : MewState :=
  let st1 := clearStreamTimers st
  let st2 := { st1 with currentRoundId := roundId, renderedStreamText := "",
                        pendingStreamText := "", gotFirstToken := false,
                        sawRawChunk := false, chatState := .waiting_first_token }
  resetFirstTokenTimer (showBubbleInstant THINKING_HINT st2)

/-- `appendChunk` of main.ts (also the body of the `qwen_stream_chunk`
listener). -/
def appendChunk (roundId : Nat) (chunk : String) (st : MewState) : MewState :=
  if roundId ≠ st.currentRoundId then st
  else
    let st1 := { st with sawRawChunk := true }
    let st2 :=
      if st1.gotFirstToken = false ∧ st1.firstTokenTimer then
        { st1 with firstTokenTimer := false }
      else st1
    let st3 := resetSilenceTimer st2
    let sanitizedChunk := sanitize chunk
    if sanitizedChunk.length = 0 then st3
    else
      let st4 := { st3 with pendingStreamText := st3.pendingStreamText ++ sanitizedChunk }
      if STREAM_BATCH_CHARS ≤ st4.pendingStreamText.length then flushPendingStream st4
      else scheduleFlush st4

/-- The body of the `qwen_stream_error` listener in
`setupQwenEventListeners` of main.ts. -/
def streamErrorEvent (roundId : Nat) (kind message : String) (st : MewState) : MewState :=
  if roundId ≠ st.currentRoundId then st
  else
    let _ := (kind, message)
    clearStreamTimers { (showBubbleInstant SESSION_INTERRUPTED_HINT st) with chatState := .error }

/-- `RetryAck` of main.ts: the acknowledgment of `qwen_retry_last`. -/
structure RetryAck where
  ok : Bool
  resent : Bool
  roundId : Option Nat
deriving DecidableEq, Repr

/-- `retryLastFailedInput` of main.ts.  `none` models the `invoke` call
throwing; otherwise the acknowledgment is inspected:
`!ack.ok || !ack.resent || ack.roundId == null` is the failure path, and
on success `startRound(ack.roundId)` runs. -/
def retryLastFailedInput (ack : Option RetryAck) (st : MewState) : MewState :=
  match ack with
  | some ⟨true, true, some rid⟩ => startRound rid st
  | _ => { (showBubbleInstant RETRY_FAILED_HINT st) with chatState := .error }

/-- `closeFirstFailModal` of main.ts. -/
def closeFirstFailModal (st : MewState) : MewState :=
  { st with firstFailModalVisible := false }

/-- The body of the `firstFailRetry` click listener of main.ts: close the
failure dialog, then run the retry. -/
def firstFailRetryClick (ack : Option RetryAck) (st : MewState) : MewState :=
  retryLastFailedInput ack (closeFirstFailModal st)

/-- The ECMAScript whitespace set stripped by `String.prototype.trim`:
WhiteSpace (TAB, VT, FF, SP, NBSP, ZWNBSP U+FEFF, and the Unicode
space-separator category: U+1680, U+2000 to U+200A, U+202F, U+205F,
U+3000) together with the line terminators LF, CR, LS (U+2028) and
PS (U+2029). -/
def isJsTrimWhitespace (c : Char) : Bool :=
  c = '\u0009' || c = '\u000A' || c = '\u000B' || c = '\u000C' || c = '\u000D' ||
    c = '\u0020' || c = '\u00A0' || c = '\u1680' ||
    (0x2000 ≤ c.toNat && c.toNat ≤ 0x200A) ||
    c = '\u2028' || c = '\u2029' || c = '\u202F' || c = '\u205F' || c = '\u3000' ||
    c = '\uFEFF'

/-- JavaScript `String.prototype.trim` as used in `submitInput` of
main.ts: drop leading and trailing ECMAScript whitespace characters. -/
def trimString (s : String) : String :=
  ⟨((s.data.dropWhile isJsTrimWhitespace).reverse.dropWhile isJsTrimWhitespace).reverse⟩

/-- `submitInput` of main.ts up to its transport suspension point: on
blank input (trimmed length zero) show the empty-input hint, set the error
state and issue no request; otherwise the state is untouched and the
submit-round request carrying the raw input is issued (`some raw`). -/
def submitInput (raw : String) (st : MewState) : MewState × Option String :=
  if (trimString raw).length = 0 then
    ({ (showBubbleInstant EMPTY_INPUT_HINT st) with chatState := .error }, none)
  else
    (st, some raw)

/-- Folding `appendChunk` over a list of chunks, all tagged with the same
round id, in arrival order. -/
def processChunks (roundId : Nat) (chunks : List String) (st : MewState) : MewState :=
  chunks.foldl (fun s c => appendChunk roundId c s) st

/-- Concatenation, in arrival order, of the sanitized forms of a list of
chunks. -/
def sanitizedConcat : List String → String
  | [] => ""
  | c :: cs => sanitize c ++ sanitizedConcat cs

/-- Mid-round invariant maintained by the coordinator between `startRound`
and the terminal transition: the round id is current, no text is rendered
before the first token, and the chat state is `streaming` exactly after
the first token (otherwise `waiting_first_token`). -/
def midRound (roundId : Nat) (st : MewState) : Prop :=
  st.currentRoundId = roundId ∧
    (st.gotFirstToken = false → st.renderedStreamText = "") ∧
    st.chatState = (if st.gotFirstToken then ChatRuntimeState.streaming
                    else ChatRuntimeState.waiting_first_token)

/-! ## Helper lemmas -/

/-- A string append is empty iff both parts are. -/
theorem str_append_eq_empty_iff (s t : String) : s ++ t = "" ↔ s = "" ∧ t = "" := by
  obtain ⟨l⟩ := s
  obtain ⟨m⟩ := t
  constructor
  · intro h
    have hd : l ++ m = [] := congrArg String.data h
    rcases List.append_eq_nil.mp hd with ⟨h1, h2⟩
    exact ⟨congrArg String.mk h1, congrArg String.mk h2⟩
  · intro h
    have h1 : l = [] := congrArg String.data h.1
    have h2 : m = [] := congrArg String.data h.2
    subst h1; subst h2; rfl

/-- A string of length zero is the empty string. -/
theorem str_of_length_zero (s : String) (h : s.length = 0) : s = "" := by
  obtain ⟨l⟩ := s
  cases l with
  | nil => rfl
  | cons c t => simp [String.length] at h

/-- `flushPendingStream` with an empty pending buffer only clears the
flush timer. -/
theorem flush_of_pending_empty (st : MewState) (h : st.pendingStreamText = "") :
    flushPendingStream st = { st with flushTimer := false } := by
  simp [flushPendingStream, h]

/-- `flushPendingStream` after the first token: appends the pending buffer
to the rendered text and displays it. -/
theorem flush_of_got (st : MewState) (hg : st.gotFirstToken = true)
    (hp : st.pendingStreamText ≠ "") :
    flushPendingStream st =
      { st with flushTimer := false,
                renderedStreamText := st.renderedStreamText ++ st.pendingStreamText,
                pendingStreamText := "",
                bubbleText := st.renderedStreamText ++ st.pendingStreamText,
                bubbleHidden := false } := by
  have hlen : ¬ st.pendingStreamText.length = 0 := fun h0 => hp (str_of_length_zero _ h0)
  simp [flushPendingStream, hlen, hg, showBubbleInstant]

/-- `flushPendingStream` flushing the first nonempty pending buffer of the
round: marks the first token, enters `streaming`, disarms the first-token
timer, and renders the pending buffer. -/
theorem flush_of_first (st : MewState) (hg : st.gotFirstToken = false)
    (hp : st.pendingStreamText ≠ "") :
    flushPendingStream st =
      { st with flushTimer := false, gotFirstToken := true,
                chatState := .streaming, firstTokenTimer := false,
                renderedStreamText := st.pendingStreamText,
                pendingStreamText := "",
                bubbleText := st.pendingStreamText,
                bubbleHidden := false } := by
  have hlen : ¬ st.pendingStreamText.length = 0 := fun h0 => hp (str_of_length_zero _ h0)
  simp [flushPendingStream, hlen, hg, showBubbleInstant]

/-- `scheduleFlush` always results in the flush timer being armed and
changes nothing else. -/
theorem scheduleFlush_eq (st : MewState) :
    scheduleFlush st = { st with flushTimer := true } := by
  by_cases hf : st.flushTimer
  · obtain ⟨cs, cr, rt, pt, gf, sw, ft, sl, ftt, bt, bh, fm⟩ := st
    simp at hf
    simp [scheduleFlush, hf]
  · simp [scheduleFlush, hf]

/-- `flushPendingStream` preserves the mid-round invariant and the total
accumulated (rendered plus pending) text. -/
theorem flush_midRound (roundId : Nat) (st : MewState) (h : midRound roundId st) :
    midRound roundId (flushPendingStream st) ∧
      (flushPendingStream st).renderedStreamText
          ++ (flushPendingStream st).pendingStreamText
        = st.renderedStreamText ++ st.pendingStreamText := by
  obtain ⟨hid, hren, hstate⟩ := h
  by_cases hp : st.pendingStreamText.length = 0
  · have hpe : st.pendingStreamText = "" := str_of_length_zero _ hp
    rw [flush_of_pending_empty st hpe]
    exact ⟨⟨hid, hren, hstate⟩, rfl⟩
  · have hpe : st.pendingStreamText ≠ "" := fun he => hp (by rw [he]; rfl)
    cases hg : st.gotFirstToken
    · rw [flush_of_first st hg hpe]
      refine ⟨⟨hid, ?_, ?_⟩, ?_⟩
      · intro hgf; exact Bool.noConfusion hgf
      · simp
      · simp [hren hg]
    · rw [flush_of_got st hg hpe]
      refine ⟨⟨hid, ?_, ?_⟩, ?_⟩
      · intro hgf; rw [hg] at hgf; exact Bool.noConfusion hgf
      · simpa [hg] using hstate
      · simp

/-- `flushPendingStream` never changes `sawRawChunk`. -/
theorem flush_sawRawChunk (st : MewState) :
    (flushPendingStream st).sawRawChunk = st.sawRawChunk := by
  by_cases hp : st.pendingStreamText.length = 0
  · simp [flushPendingStream, hp]
  · cases hg : st.gotFirstToken <;> simp [flushPendingStream, hp, hg, showBubbleInstant]

/-- `flushPendingStream` never changes the silence timer. -/
theorem flush_silenceTimer (st : MewState) :
    (flushPendingStream st).silenceTimer = st.silenceTimer := by
  by_cases hp : st.pendingStreamText.length = 0
  · simp [flushPendingStream, hp]
  · cases hg : st.gotFirstToken <;> simp [flushPendingStream, hp, hg, showBubbleInstant]

/-- `scheduleFlush` never changes `sawRawChunk`. -/
theorem scheduleFlush_sawRawChunk (st : MewState) :
    (scheduleFlush st).sawRawChunk = st.sawRawChunk := by
  by_cases hf : st.flushTimer <;> simp [scheduleFlush, hf]

/-- `scheduleFlush` never changes the silence timer. -/
theorem scheduleFlush_silenceTimer (st : MewState) :
    (scheduleFlush st).silenceTimer = st.silenceTimer := by
  by_cases hf : st.flushTimer <;> simp [scheduleFlush, hf]

/-- Any fragment processed for the current round records that a raw chunk
was seen and re-arms the silence timer. -/
theorem appendChunk_marks_raw (roundId : Nat) (chunk : String) (st : MewState)
    (h : roundId = st.currentRoundId) :
    (appendChunk roundId chunk st).sawRawChunk = true ∧
      (appendChunk roundId chunk st).silenceTimer = true := by
  by_cases h0 : (sanitize chunk).length = 0 <;>
    cases hg : st.gotFirstToken <;> cases hft : st.firstTokenTimer <;>
    simp [appendChunk, h, h0, hg, hft, resetSilenceTimer] <;>
    split <;>
    simp [flush_sawRawChunk, flush_silenceTimer, scheduleFlush_sawRawChunk,
      scheduleFlush_silenceTimer]

/-- `appendChunk` on a current-round fragment that sanitizes to the empty
string: only `sawRawChunk`, the first-token timer and the silence timer
change. -/
theorem appendChunk_of_current_blank (roundId : Nat) (chunk : String) (st : MewState)
    (hid : roundId = st.currentRoundId) (hs : sanitize chunk = "") :
    appendChunk roundId chunk st =
      { st with sawRawChunk := true,
                firstTokenTimer := st.gotFirstToken && st.firstTokenTimer,
                silenceTimer := true } := by
  cases hg : st.gotFirstToken <;> cases hft : st.firstTokenTimer <;>
    simp [appendChunk, hid, hs, hg, hft, resetSilenceTimer]

/-- `appendChunk` on a current-round fragment whose sanitized text keeps
the pending buffer below the batch threshold: the text is buffered and the
debounce flush timer armed. -/
theorem appendChunk_of_current_small (roundId : Nat) (chunk : String) (st : MewState)
    (hid : roundId = st.currentRoundId) (hs : sanitize chunk ≠ "")
    (hb : ¬ STREAM_BATCH_CHARS ≤ st.pendingStreamText.length + (sanitize chunk).length) :
    appendChunk roundId chunk st =
      { st with sawRawChunk := true,
                firstTokenTimer := st.gotFirstToken && st.firstTokenTimer,
                silenceTimer := true,
                pendingStreamText := st.pendingStreamText ++ sanitize chunk,
                flushTimer := true } := by
  have h0 : ¬ (sanitize chunk).length = 0 := fun hl => hs (str_of_length_zero _ hl)
  cases hg : st.gotFirstToken <;> cases hft : st.firstTokenTimer <;>
    (simp [appendChunk, hid, h0, hg, hft, resetSilenceTimer, hb]
     rw [scheduleFlush_eq])

/-- `appendChunk` on a current-round fragment whose sanitized text reaches
the batch threshold: the buffered text is flushed immediately. -/
theorem appendChunk_of_current_big (roundId : Nat) (chunk : String) (st : MewState)
    (hid : roundId = st.currentRoundId) (hs : sanitize chunk ≠ "")
    (hb : STREAM_BATCH_CHARS ≤ st.pendingStreamText.length + (sanitize chunk).length) :
    appendChunk roundId chunk st =
      flushPendingStream
        { st with sawRawChunk := true,
                  firstTokenTimer := st.gotFirstToken && st.firstTokenTimer,
                  silenceTimer := true,
                  pendingStreamText := st.pendingStreamText ++ sanitize chunk } := by
  have h0 : ¬ (sanitize chunk).length = 0 := fun hl => hs (str_of_length_zero _ hl)
  cases hg : st.gotFirstToken <;> cases hft : st.firstTokenTimer <;>
    simp [appendChunk, hid, h0, hg, hft, resetSilenceTimer, hb]

/-- `appendChunk` preserves the mid-round invariant and appends the
sanitized chunk to the accumulated (rendered plus pending) text. -/
theorem appendChunk_midRound (roundId : Nat) (chunk : String) (st : MewState)
    (h : midRound roundId st) :
    midRound roundId (appendChunk roundId chunk st) ∧
      (appendChunk roundId chunk st).renderedStreamText
          ++ (appendChunk roundId chunk st).pendingStreamText
        = (st.renderedStreamText ++ st.pendingStreamText) ++ sanitize chunk := by
  obtain ⟨hid, hren, hstate⟩ := h
  by_cases hs : sanitize chunk = ""
  · rw [appendChunk_of_current_blank roundId chunk st hid.symm hs]
    exact ⟨⟨hid, hren, hstate⟩, by simp [hs]⟩
  · by_cases hb : STREAM_BATCH_CHARS ≤ st.pendingStreamText.length + (sanitize chunk).length
    · rw [appendChunk_of_current_big roundId chunk st hid.symm hs hb]
      have hinv : midRound roundId
          { st with sawRawChunk := true,
                    firstTokenTimer := st.gotFirstToken && st.firstTokenTimer,
                    silenceTimer := true,
                    pendingStreamText := st.pendingStreamText ++ sanitize chunk } :=
        ⟨hid, hren, hstate⟩
      obtain ⟨hm, hacc⟩ := flush_midRound roundId _ hinv
      rw [hacc]
      exact ⟨hm, by simp [String.append_assoc]⟩
    · rw [appendChunk_of_current_small roundId chunk st hid.symm hs hb]
      exact ⟨⟨hid, hren, hstate⟩, by simp [String.append_assoc]⟩

/-- Folding a whole list of current-round fragments preserves the
mid-round invariant and accumulates exactly the sanitized concatenation. -/
theorem processChunks_midRound (roundId : Nat) (chunks : List String) :
    ∀ st : MewState, midRound roundId st →
      midRound roundId (processChunks roundId chunks st) ∧
        (processChunks roundId chunks st).renderedStreamText
            ++ (processChunks roundId chunks st).pendingStreamText
          = (st.renderedStreamText ++ st.pendingStreamText) ++ sanitizedConcat chunks := by
  induction chunks with
  | nil => intro st h; exact ⟨h, by simp [processChunks, sanitizedConcat]⟩
  | cons c cs ih =>
    intro st h
    obtain ⟨hm1, hacc1⟩ := appendChunk_midRound roundId c st h
    obtain ⟨hm2, hacc2⟩ := ih (appendChunk roundId c st) hm1
    refine ⟨hm2, ?_⟩
    calc (processChunks roundId (c :: cs) st).renderedStreamText
          ++ (processChunks roundId (c :: cs) st).pendingStreamText
        = (processChunks roundId cs (appendChunk roundId c st)).renderedStreamText
            ++ (processChunks roundId cs (appendChunk roundId c st)).pendingStreamText := rfl
      _ = ((appendChunk roundId c st).renderedStreamText
            ++ (appendChunk roundId c st).pendingStreamText) ++ sanitizedConcat cs := hacc2
      _ = ((st.renderedStreamText ++ st.pendingStreamText) ++ sanitize c)
            ++ sanitizedConcat cs := by rw [hacc1]
      _ = (st.renderedStreamText ++ st.pendingStreamText) ++ sanitizedConcat (c :: cs) := by
            rw [sanitizedConcat, String.append_assoc]

/-- The pending buffer is always empty right after a flush. -/
theorem flush_pending (st : MewState) : (flushPendingStream st).pendingStreamText = "" := by
  by_cases hp : st.pendingStreamText.length = 0
  · rw [flush_of_pending_empty st (str_of_length_zero _ hp)]
    exact str_of_length_zero _ hp
  · have hpe : st.pendingStreamText ≠ "" := fun he => hp (by rw [he]; rfl)
    cases hg : st.gotFirstToken
    · rw [flush_of_first st hg hpe]
    · rw [flush_of_got st hg hpe]

/-- The silence-timer callback on a mid-round state with nonempty
accumulated text: the round completes with all accumulated text flushed
into the rendered text. -/
theorem silenceFire_done (roundId : Nat) (st : MewState) (h : midRound roundId st)
    (hacc : st.renderedStreamText ++ st.pendingStreamText ≠ "") :
    (silenceFire st).chatState = .round_done ∧
      (silenceFire st).renderedStreamText
        = st.renderedStreamText ++ st.pendingStreamText ∧
      (silenceFire st).pendingStreamText = "" := by
  obtain ⟨hm2, hacc2⟩ := flush_midRound roundId st h
  obtain ⟨hid2, hren2, hstate2⟩ := hm2
  have hp2 : (flushPendingStream st).pendingStreamText = "" := flush_pending st
  have hr2 : (flushPendingStream st).renderedStreamText
      = st.renderedStreamText ++ st.pendingStreamText := by
    rw [← hacc2, hp2, String.append_empty]
  have hg2 : (flushPendingStream st).gotFirstToken = true := by
    cases hgf : (flushPendingStream st).gotFirstToken
    · exact absurd (hr2.symm.trans (hren2 hgf)) hacc
    · rfl
  have hst2 : (flushPendingStream st).chatState = .streaming := by
    rw [hstate2, hg2]; rfl
  refine ⟨?_, ?_, ?_⟩ <;> simp [silenceFire, hst2, hg2, hr2, hp2]

/-- If some chunk sanitizes to nonempty text, the sanitized concatenation
is nonempty. -/
theorem sanitizedConcat_ne_empty {chunks : List String}
    (h : ∃ c ∈ chunks, sanitize c ≠ "") :
    sanitizedConcat chunks ≠ "" := by
  induction chunks with
  | nil => simp at h
  | cons c cs ih =>
    intro hcon
    rw [sanitizedConcat] at hcon
    rcases (str_append_eq_empty_iff _ _).mp hcon with ⟨hc, hcs⟩
    rcases h with ⟨d, hd, hdne⟩
    rcases List.mem_cons.mp hd with rfl | hdcs
    · exact hdne hc
    · exact ih ⟨d, hdcs, hdne⟩ hcs

/-- Folding current-round fragments that all sanitize to the empty string
changes nothing except `sawRawChunk` (set once the list is nonempty) and
the timers. -/
theorem processChunks_blank (roundId : Nat) (chunks : List String)
    (hall : ∀ c ∈ chunks, sanitize c = "") :
    ∀ st : MewState, roundId = st.currentRoundId →
      (processChunks roundId chunks st).currentRoundId = st.currentRoundId ∧
        (processChunks roundId chunks st).renderedStreamText = st.renderedStreamText ∧
        (processChunks roundId chunks st).pendingStreamText = st.pendingStreamText ∧
        (processChunks roundId chunks st).gotFirstToken = st.gotFirstToken ∧
        (processChunks roundId chunks st).chatState = st.chatState ∧
        (processChunks roundId chunks st).sawRawChunk
          = (st.sawRawChunk || !chunks.isEmpty) := by
  induction chunks with
  | nil => intro st hid; simp [processChunks]
  | cons c cs ih =>
    intro st hid
    have hstep := appendChunk_of_current_blank roundId c st hid
      (hall c (List.mem_cons_self c cs))
    have ha_cur : (appendChunk roundId c st).currentRoundId = st.currentRoundId := by
      rw [hstep]
    have ha_ren : (appendChunk roundId c st).renderedStreamText
        = st.renderedStreamText := by rw [hstep]
    have ha_pen : (appendChunk roundId c st).pendingStreamText
        = st.pendingStreamText := by rw [hstep]
    have ha_gft : (appendChunk roundId c st).gotFirstToken = st.gotFirstToken := by
      rw [hstep]
    have ha_cs : (appendChunk roundId c st).chatState = st.chatState := by rw [hstep]
    have ha_saw : (appendChunk roundId c st).sawRawChunk = true := by rw [hstep]
    obtain ⟨i1, i2, i3, i4, i5, i6⟩ := ih (fun d hd => hall d (List.mem_cons_of_mem c hd))
      (appendChunk roundId c st) (hid.trans ha_cur.symm)
    have hfold : processChunks roundId (c :: cs) st
        = processChunks roundId cs (appendChunk roundId c st) := rfl
    rw [hfold]
    refine ⟨i1.trans ha_cur, i2.trans ha_ren, i3.trans ha_pen, i4.trans ha_gft,
      i5.trans ha_cs, ?_⟩
    rw [i6, ha_saw]
    simp

/-! ## Claim theorems -/

/-- C1: a fragment (`appendChunk`) or round-tagged stream-error signal
whose round id differs from the current round id leaves the entire state
unchanged, in every chat state: both handlers are no-ops for stale round
ids. -/
theorem stale_round_is_noop (st : MewState) (roundId : Nat) (chunk kind message : String)
    (h : roundId ≠ st.currentRoundId) :
    appendChunk roundId chunk st = st ∧ streamErrorEvent roundId kind message st = st := by
  constructor
  · simp [appendChunk, h]
  · simp [streamErrorEvent, h]

/-- Witness for C1 at a concrete stale round id. -/
theorem stale_round_is_noop_witness :
    (1 ≠ initialState.currentRoundId) ∧
      (appendChunk 1 "hello" initialState = initialState ∧
        streamErrorEvent 1 "spawn" "boom" initialState = initialState) :=
  ⟨by decide, stale_round_is_noop initialState 1 "hello" "spawn" "boom" (by decide)⟩

/-- C6: in a round in which zero fragments arrived, the first-fragment
timeout firing puts the round in the `error` state with the
session-interrupted hint displayed, which differs from the
unparsable-stream hint. -/
theorem first_token_timeout_interrupts (st : MewState) (roundId : Nat) :
    (firstTokenFire (startRound roundId st)).chatState = .error ∧
      (firstTokenFire (startRound roundId st)).bubbleText = SESSION_INTERRUPTED_HINT ∧
      SESSION_INTERRUPTED_HINT ≠ STREAM_UNPARSABLE_HINT := by
  refine ⟨?_, ?_, by decide⟩ <;>
    simp [firstTokenFire, startRound, resetFirstTokenTimer, showBubbleInstant,
      clearStreamTimers]

/-- C10: blank input (empty after trimming) issues no submit-round request
and starts no round: the whole state is unchanged except that the
empty-input hint is displayed and the chat state becomes `error`. -/
theorem empty_input_no_round (st : MewState) (raw : String) (h : trimString raw = "") :
    submitInput raw st =
      ({ st with bubbleText := EMPTY_INPUT_HINT, bubbleHidden := false,
                 chatState := .error }, none) := by
  simp [submitInput, h, showBubbleInstant]

/-- Witness for C10 at a concrete input made of ECMAScript whitespace
(space, VT, NBSP and ZWNBSP). -/
theorem empty_input_no_round_witness :
    (trimString " \u000B\u00A0\uFEFF " = "") ∧
      submitInput " \u000B\u00A0\uFEFF " initialState =
        ({ initialState with bubbleText := EMPTY_INPUT_HINT, bubbleHidden := false,
                             chatState := .error }, none) :=
  ⟨by decide, empty_input_no_round initialState " \u000B\u00A0\uFEFF " (by decide)⟩

/-- Counterexample to C7 as stated: the sanitizer is not idempotent.
Removing the carriage return inside the malformed escape text splices the
remaining characters into a fresh CSI sequence, which only a second
application removes. -/
theorem sanitize_not_idempotent :
    sanitize (sanitize "\u001b[\rm") ≠ sanitize "\u001b[\rm" := by decide

/-- A CSI match can only begin with the ESC character. -/
theorem csiMatch_head_esc {c : Char} {t r : List Char} (h : csiMatch (c :: t) = some r) :
    c = '\u001b' := by
  by_contra hc
  cases t with
  | nil => simp [csiMatch] at h
  | cons b rest =>
    rw [csiMatch] at h
    rw [if_neg (fun hand => hc hand.1)] at h
    exact Option.noConfusion h

/-- An OSC match can only begin with the ESC character. -/
theorem oscMatch_head_esc {c : Char} {t r : List Char} (h : oscMatch (c :: t) = some r) :
    c = '\u001b' := by
  by_contra hc
  cases t with
  | nil => simp [oscMatch] at h
  | cons b rest =>
    rw [oscMatch] at h
    rw [if_neg (fun hand => hc hand.1)] at h
    exact Option.noConfusion h

/-- Patterns that can only match at an ESC never fire on an ESC-free
text, so the strip scan is the identity there. -/
theorem stripAux_of_no_esc (pat : List Char → Option (List Char))
    (hpat : ∀ (c : Char) (t r : List Char), pat (c :: t) = some r → c = '\u001b') :
    ∀ (fuel : Nat) (l : List Char), (∀ c ∈ l, c ≠ '\u001b') → stripAux pat fuel l = l := by
  intro fuel
  induction fuel with
  | zero => intro l _; rfl
  | succ n ih =>
    intro l hl
    cases l with
    | nil => rfl
    | cons c t =>
      have hc : c ≠ '\u001b' := hl c (List.mem_cons_self c t)
      have hnone : pat (c :: t) = none := by
        cases hmatch : pat (c :: t) with
        | none => rfl
        | some r => exact absurd (hpat c t r hmatch) hc
      rw [stripAux, hnone]
      exact congrArg (c :: ·) (ih t (fun d hd => hl d (List.mem_cons_of_mem c hd)))

/-- On ESC-free input the sanitizer only removes carriage returns. -/
theorem sanitize_of_no_esc (l : List Char) (h : ∀ c ∈ l, c ≠ '\u001b') :
    sanitize ⟨l⟩ = ⟨l.filter (fun c => c ≠ '\r')⟩ := by
  have h1 : stripPattern csiMatch l = l :=
    stripAux_of_no_esc csiMatch (fun c t r hm => csiMatch_head_esc hm) l.length l h
  have h2 : stripPattern oscMatch l = l :=
    stripAux_of_no_esc oscMatch (fun c t r hm => oscMatch_head_esc hm) l.length l h
  simp only [sanitize, stripPattern] at *
  rw [h1, h2]

/-- C7 amended: the sanitizer is idempotent on every input that contains
no ESC (U+001B) character.  (It is not idempotent in general: stripping a
carriage return or a control sequence can splice the remaining characters
into a fresh CSI sequence, which only a second application removes.) -/
theorem sanitize_idempotent_without_esc (s : String)
    (h : ∀ c ∈ s.data, c ≠ '\u001b') :
    sanitize (sanitize s) = sanitize s := by
  obtain ⟨l⟩ := s
  rw [sanitize_of_no_esc l h]
  have hfl : ∀ c ∈ l.filter (fun c => c ≠ '\r'), c ≠ '\u001b' :=
    fun c hc => h c (List.mem_of_mem_filter hc)
  rw [sanitize_of_no_esc _ hfl]
  congr 1
  rw [List.filter_filter]
  apply List.filter_congr
  intro c hc
  simp

/-- Witness for the amended C7 at a concrete ESC-free input containing a
carriage return. -/
theorem sanitize_idempotent_without_esc_witness :
    (∀ c ∈ ("a\rb" : String).data, c ≠ '\u001b') ∧
      sanitize (sanitize "a\rb") = sanitize "a\rb" :=
  ⟨by decide, sanitize_idempotent_without_esc "a\rb" (by decide)⟩

/-- Counterexample to C2 as stated: after the round reaches `round_done`,
a fragment bearing the still-current round id still appends to the
rendered text, so the rendered text is not frozen at terminal states. -/
theorem rendered_changes_after_round_done :
    (silenceFire (appendChunk 1 "hello wo" (startRound 1 initialState))).chatState
        = .round_done ∧
      (appendChunk 1 "abcdefgh"
          (silenceFire (appendChunk 1 "hello wo" (startRound 1 initialState)))).renderedStreamText
        ≠ (silenceFire (appendChunk 1 "hello wo" (startRound 1 initialState))).renderedStreamText := by
  decide

/-- Counterexample to C3 as stated: the first fragment of the round, when
it sanitizes to the empty string, leaves the chat state in
`waiting_first_token`; the transition to `streaming` does not happen at
fragment receipt. -/
theorem empty_fragment_keeps_waiting :
    sanitize "\u001b[m" = "" ∧
      (appendChunk 1 "\u001b[m" (startRound 1 initialState)).chatState ≠ .streaming ∧
      (appendChunk 1 "\u001b[m" (startRound 1 initialState)).chatState
        = .waiting_first_token := by
  decide

/-- `flushPendingStream` only ever appends to the rendered text, for
states satisfying the code's invariant that nothing is rendered before
the first token. -/
theorem flush_rendered_extends (st : MewState)
    (hren : st.gotFirstToken = false → st.renderedStreamText = "") :
    ∃ s, (flushPendingStream st).renderedStreamText = st.renderedStreamText ++ s := by
  by_cases hp : st.pendingStreamText.length = 0
  · exact ⟨"", by simp [flushPendingStream, hp]⟩
  · cases hg : st.gotFirstToken
    · refine ⟨st.pendingStreamText, ?_⟩
      rw [hren hg]
      simp [flushPendingStream, hp, hg, showBubbleInstant]
    · exact ⟨st.pendingStreamText, by simp [flushPendingStream, hp, hg, showBubbleInstant]⟩

/-- The silence-timer callback changes the rendered text exactly as its
initial flush does. -/
theorem silenceFire_rendered (st : MewState) :
    (silenceFire st).renderedStreamText = (flushPendingStream st).renderedStreamText := by
  simp only [silenceFire, showBubbleInstant]
  split_ifs <;> rfl

/-- `scheduleFlush` never changes the rendered text. -/
theorem scheduleFlush_rendered (st : MewState) :
    (scheduleFlush st).renderedStreamText = st.renderedStreamText := by
  by_cases hf : st.flushTimer <;> simp [scheduleFlush, hf]

/-- `appendChunk` only ever appends to the rendered text. -/
theorem appendChunk_rendered_extends (roundId : Nat) (chunk : String) (st : MewState)
    (hren : st.gotFirstToken = false → st.renderedStreamText = "") :
    ∃ s, (appendChunk roundId chunk st).renderedStreamText
      = st.renderedStreamText ++ s := by
  by_cases hid : roundId ≠ st.currentRoundId
  · exact ⟨"", by simp [appendChunk, hid]⟩
  · push_neg at hid
    by_cases h0 : (sanitize chunk).length = 0
    · exact ⟨"", by cases hg : st.gotFirstToken <;> cases hft : st.firstTokenTimer <;>
        simp [appendChunk, hid, h0, hg, hft, resetSilenceTimer]⟩
    · cases hg : st.gotFirstToken <;> cases hft : st.firstTokenTimer <;>
        (simp only [appendChunk, hid, h0, resetSilenceTimer, hg, hft]
         norm_num
         split
         · exact flush_rendered_extends _
             (by intro hgf; first | exact hren hg | exact absurd hgf (by simp))
         · exact ⟨"", by simp [scheduleFlush_rendered]⟩)

/-- C2 amended: within a round the rendered text only grows — each of
`appendChunk`, `flushPendingStream` and the silence-timer callback only
ever appends to it (for states satisfying the code's invariant that no
text is rendered before the first token).  The rendered text is however
NOT frozen once the round reaches `round_done` or `error`: a fragment
bearing the still-current round id after a terminal state is still
processed and can append further text (see the counterexample). -/
theorem rendered_text_monotone (st : MewState) (roundId : Nat) (chunk : String)
    (hren : st.gotFirstToken = false → st.renderedStreamText = "") :
    (∃ s, (appendChunk roundId chunk st).renderedStreamText
        = st.renderedStreamText ++ s) ∧
      (∃ s, (flushPendingStream st).renderedStreamText = st.renderedStreamText ++ s) ∧
      (∃ s, (silenceFire st).renderedStreamText = st.renderedStreamText ++ s) :=
  ⟨appendChunk_rendered_extends roundId chunk st hren,
    flush_rendered_extends st hren,
    by simp only [silenceFire_rendered]; exact flush_rendered_extends st hren⟩

/-- Witness for the amended C2 at the initial state. -/
theorem rendered_text_monotone_witness :
    (initialState.gotFirstToken = false → initialState.renderedStreamText = "") ∧
      ((∃ s, (appendChunk 1 "hello" initialState).renderedStreamText
          = initialState.renderedStreamText ++ s) ∧
        (∃ s, (flushPendingStream initialState).renderedStreamText
          = initialState.renderedStreamText ++ s) ∧
        (∃ s, (silenceFire initialState).renderedStreamText
          = initialState.renderedStreamText ++ s)) :=
  ⟨by decide, rendered_text_monotone initialState 1 "hello" (by decide)⟩

/-- C3 amended: receipt of a fragment tagged with the current round id
while waiting for the first token always disarms the first-fragment timer
and arms the silence timer (even when the fragment sanitizes to the empty
string), but the chat state does not become `streaming` at receipt: it
stays `waiting_first_token` unless the sanitized fragment immediately
reaches the batch threshold and is flushed. -/
theorem first_fragment_timer_effects (st : MewState) (chunk : String)
    (hstate : st.chatState = .waiting_first_token) (hg : st.gotFirstToken = false)
    (hp : st.pendingStreamText = "") :
    (appendChunk st.currentRoundId chunk st).firstTokenTimer = false ∧
      (appendChunk st.currentRoundId chunk st).silenceTimer = true ∧
      (appendChunk st.currentRoundId chunk st).sawRawChunk = true ∧
      ((sanitize chunk).length < STREAM_BATCH_CHARS →
        (appendChunk st.currentRoundId chunk st).chatState = .waiting_first_token) ∧
      (STREAM_BATCH_CHARS ≤ (sanitize chunk).length →
        (appendChunk st.currentRoundId chunk st).chatState = .streaming) := by
  have hbc : STREAM_BATCH_CHARS = 8 := rfl
  rw [hbc]
  by_cases h0 : (sanitize chunk).length = 0
  · cases hft : st.firstTokenTimer <;>
      simp [appendChunk, hstate, hg, hp, hft, resetSilenceTimer, h0]
  · by_cases hb : (8 : Nat) ≤ (sanitize chunk).length
    · cases hft : st.firstTokenTimer <;>
        simp [appendChunk, hstate, hg, hp, hft, resetSilenceTimer, h0, hb, hbc,
          flushPendingStream, showBubbleInstant]
    · cases hft : st.firstTokenTimer <;> cases hfl : st.flushTimer <;>
        simp [appendChunk, hstate, hg, hp, hft, hfl, resetSilenceTimer, h0, hb, hbc,
          scheduleFlush]

/-- Witness for the amended C3 at the first fragment of a fresh round. -/
theorem first_fragment_timer_effects_witness :
    ((startRound 1 initialState).chatState = .waiting_first_token ∧
        (startRound 1 initialState).gotFirstToken = false ∧
        (startRound 1 initialState).pendingStreamText = "") ∧
      ((appendChunk (startRound 1 initialState).currentRoundId "H"
            (startRound 1 initialState)).firstTokenTimer = false ∧
        (appendChunk (startRound 1 initialState).currentRoundId "H"
            (startRound 1 initialState)).silenceTimer = true ∧
        (appendChunk (startRound 1 initialState).currentRoundId "H"
            (startRound 1 initialState)).sawRawChunk = true ∧
        ((sanitize "H").length < STREAM_BATCH_CHARS →
          (appendChunk (startRound 1 initialState).currentRoundId "H"
              (startRound 1 initialState)).chatState = .waiting_first_token) ∧
        (STREAM_BATCH_CHARS ≤ (sanitize "H").length →
          (appendChunk (startRound 1 initialState).currentRoundId "H"
              (startRound 1 initialState)).chatState = .streaming)) :=
  ⟨⟨by decide, by decide, by decide⟩,
    first_fragment_timer_effects (startRound 1 initialState) "H"
      (by decide) (by decide) (by decide)⟩

/-- Counterexample to C8 as stated: `hideBubble` does not invalidate the
current round id, so a fragment arriving afterwards with the dismissed
round's id is processed rather than discarded: the state leaves `idle`
and text is rendered. -/
theorem fragment_after_dismissal_processed :
    (appendChunk 1 "abcdefgh" (hideBubble (startRound 1 initialState))).chatState ≠ .idle ∧
      (appendChunk 1 "abcdefgh" (hideBubble (startRound 1 initialState))).renderedStreamText
        = "abcdefgh" := by
  decide

/-- C8 amended: explicit user dismissal (`hideBubble`, from any state)
clears all buffers and timers and returns the chat state to `idle`, but
it does not invalidate the current round id, so a fragment subsequently
arriving with the dismissed round's id is still processed (it records a
raw chunk and re-arms the silence timer) rather than being discarded. -/
theorem dismissal_clears_round (st : MewState) (chunk : String) :
    (hideBubble st).chatState = .idle ∧
      (hideBubble st).pendingStreamText = "" ∧
      (hideBubble st).renderedStreamText = "" ∧
      (hideBubble st).flushTimer = false ∧
      (hideBubble st).silenceTimer = false ∧
      (hideBubble st).firstTokenTimer = false ∧
      (hideBubble st).currentRoundId = st.currentRoundId ∧
      (appendChunk st.currentRoundId chunk (hideBubble st)).sawRawChunk = true ∧
      (appendChunk st.currentRoundId chunk (hideBubble st)).silenceTimer = true := by
  refine ⟨rfl, rfl, rfl, rfl, rfl, rfl, rfl, ?_, ?_⟩
  · exact (appendChunk_marks_raw st.currentRoundId chunk (hideBubble st) rfl).1
  · exact (appendChunk_marks_raw st.currentRoundId chunk (hideBubble st) rfl).2

/-- C9: a retry after a first-submission failure first closes the failure
dialog; if the acknowledgment is ok with `resent` and a non-null round id,
a fresh round starts with that id (re-entering `waiting_first_token` with
the first-fragment timer armed); otherwise (refusal or exception, modelled
by `none`) the retry-failed terminal message is shown, the state becomes
`error`, and the failure dialog is not re-opened. -/
theorem retry_outcomes (st : MewState) (ack : Option RetryAck) :
    (∀ rid : Nat, ack = some ⟨true, true, some rid⟩ →
        (firstFailRetryClick ack st).chatState = .waiting_first_token ∧
          (firstFailRetryClick ack st).currentRoundId = rid ∧
          (firstFailRetryClick ack st).firstTokenTimer = true ∧
          (firstFailRetryClick ack st).firstFailModalVisible = false) ∧
      ((∀ rid : Nat, ack ≠ some ⟨true, true, some rid⟩) →
        (firstFailRetryClick ack st).chatState = .error ∧
          (firstFailRetryClick ack st).bubbleText = RETRY_FAILED_HINT ∧
          (firstFailRetryClick ack st).firstFailModalVisible = false) := by
  constructor
  · intro rid hack
    subst hack
    simp [firstFailRetryClick, retryLastFailedInput, closeFirstFailModal, startRound,
      clearStreamTimers, showBubbleInstant, resetFirstTokenTimer]
  · intro hfail
    rcases ack with _ | ⟨ok, resent, rid⟩
    · simp [firstFailRetryClick, retryLastFailedInput, closeFirstFailModal,
        showBubbleInstant]
    · rcases ok <;> rcases resent <;> rcases rid with _ | r <;>
        first
          | exact absurd rfl (hfail _)
          | simp [firstFailRetryClick, retryLastFailedInput, closeFirstFailModal,
              showBubbleInstant]

/-- Witness for C9: a successful retry acknowledgment with round id 5, and
a thrown retry (`none`), each at the initial state. -/
theorem retry_outcomes_witness :
    ((firstFailRetryClick (some ⟨true, true, some 5⟩) initialState).chatState
          = .waiting_first_token ∧
        (firstFailRetryClick (some ⟨true, true, some 5⟩) initialState).currentRoundId = 5 ∧
        (firstFailRetryClick (some ⟨true, true, some 5⟩) initialState).firstTokenTimer
          = true ∧
        (firstFailRetryClick (some ⟨true, true, some 5⟩) initialState).firstFailModalVisible
          = false) ∧
      ((firstFailRetryClick none initialState).chatState = .error ∧
        (firstFailRetryClick none initialState).bubbleText = RETRY_FAILED_HINT ∧
        (firstFailRetryClick none initialState).firstFailModalVisible = false) :=
  ⟨(retry_outcomes initialState (some ⟨true, true, some 5⟩)).1 5 rfl,
    (retry_outcomes initialState none).2 (by simp)⟩

/-- C4: for a round in the streaming regime in which at least one
fragment sanitized to nonempty text, the silence-timer elapsing flushes
any pending text and completes the round: the state becomes `round_done`
and the rendered text equals the concatenation, in arrival order, of the
sanitized forms of all fragments accepted for the round. -/
theorem silence_completes_round (st : MewState) (roundId : Nat) (chunks : List String)
    (hne : ∃ c ∈ chunks, sanitize c ≠ "") :
    (silenceFire (processChunks roundId chunks (startRound roundId st))).chatState
        = .round_done ∧
      (silenceFire (processChunks roundId chunks (startRound roundId st))).renderedStreamText
        = sanitizedConcat chunks ∧
      (silenceFire (processChunks roundId chunks (startRound roundId st))).pendingStreamText
        = "" := by
  have h0 : midRound roundId (startRound roundId st) := by
    refine ⟨rfl, fun _ => rfl, ?_⟩
    simp [startRound, resetFirstTokenTimer, showBubbleInstant, clearStreamTimers]
  obtain ⟨hm, hacc⟩ := processChunks_midRound roundId chunks (startRound roundId st) h0
  have haccEq : (processChunks roundId chunks (startRound roundId st)).renderedStreamText
      ++ (processChunks roundId chunks (startRound roundId st)).pendingStreamText
      = sanitizedConcat chunks := by simpa using hacc
  obtain ⟨h1, h2, h3⟩ := silenceFire_done roundId _ hm
    (by rw [haccEq]; exact sanitizedConcat_ne_empty hne)
  exact ⟨h1, by rw [h2, haccEq], h3⟩

/-- Witness for C4: a single fragment round yielding rendered text
`"Hi"`. -/
theorem silence_completes_round_witness :
    (∃ c ∈ ["Hi"], sanitize c ≠ "") ∧
      ((silenceFire (processChunks 1 ["Hi"] (startRound 1 initialState))).chatState
          = .round_done ∧
        (silenceFire (processChunks 1 ["Hi"] (startRound 1 initialState))).renderedStreamText
          = sanitizedConcat ["Hi"] ∧
        (silenceFire (processChunks 1 ["Hi"] (startRound 1 initialState))).pendingStreamText
          = "") :=
  ⟨by decide, silence_completes_round initialState 1 ["Hi"] (by decide)⟩

/-- C5: for a round in which at least one fragment arrived but every
fragment sanitized to the empty string, the silence timer elapsing puts
the round in the `error` state with the unparsable-stream hint displayed,
which differs from the session-interrupted hint. -/
theorem silence_all_empty_unparsable (st : MewState) (roundId : Nat) (chunks : List String)
    (hne : chunks ≠ []) (hall : ∀ c ∈ chunks, sanitize c = "") :
    (silenceFire (processChunks roundId chunks (startRound roundId st))).chatState
        = .error ∧
      (silenceFire (processChunks roundId chunks (startRound roundId st))).bubbleText
        = STREAM_UNPARSABLE_HINT ∧
      STREAM_UNPARSABLE_HINT ≠ SESSION_INTERRUPTED_HINT := by
  obtain ⟨i1, i2, i3, i4, i5, i6⟩ :=
    processChunks_blank roundId chunks hall (startRound roundId st) rfl
  have hp : (processChunks roundId chunks (startRound roundId st)).pendingStreamText
      = "" := i3
  have hg : (processChunks roundId chunks (startRound roundId st)).gotFirstToken
      = false := i4
  have hcs : (processChunks roundId chunks (startRound roundId st)).chatState
      = .waiting_first_token := i5
  have hsw : (processChunks roundId chunks (startRound roundId st)).sawRawChunk
      = true := by
    rw [i6]
    cases chunks with
    | nil => exact absurd rfl hne
    | cons c cs => simp
  refine ⟨?_, ?_, by decide⟩ <;>
    simp [silenceFire, flush_of_pending_empty _ hp, hcs, hg, hsw, showBubbleInstant]

/-- Witness for C5: a single ANSI-reset fragment that sanitizes away
entirely. -/
theorem silence_all_empty_unparsable_witness :
    ((["\u001b[0m"] : List String) ≠ [] ∧ ∀ c ∈ ["\u001b[0m"], sanitize c = "") ∧
      ((silenceFire (processChunks 1 ["\u001b[0m"] (startRound 1 initialState))).chatState
          = .error ∧
        (silenceFire (processChunks 1 ["\u001b[0m"] (startRound 1 initialState))).bubbleText
          = STREAM_UNPARSABLE_HINT ∧
        STREAM_UNPARSABLE_HINT ≠ SESSION_INTERRUPTED_HINT) :=
  ⟨⟨by decide, by decide⟩,
    silence_all_empty_unparsable initialState 1 ["\u001b[0m"] (by decide) (by decide)⟩

end DeskMewPet
